import Mathlib

/-!
Verification of the Vision AI Agent front-end (src/src/App.tsx).

The development shallowly embeds the state management and the two
prompt-construction / response-handling routines of the app: the upload
store handlers (handleFileChange, removeFile), the image-generation
routine (generateImage) and the script-generation routine
(generateVideoScript).  Browser-supplied nondeterminism (Math.random id
draws, FileReader data URLs, URL.createObjectURL handles) is passed in
explicitly as parameters; the network call is passed in as an
Except-valued service outcome.
-/

namespace VisionAI

/-- Static scene / style preset records: the fields id, label, prompt of
the SCENES and STYLES constant tables in App.tsx. -/
structure Preset where
  id : String
  label : String
  prompt : String
deriving Repr, DecidableEq

/-- The SCENES constant table of App.tsx. -/
def SCENES : List Preset :=
  [ ⟨"city", "🏙️ 城市街道", "in a bustling city street with skyscrapers and traffic"⟩,
    ⟨"nature", "🌿 自然风光", "in a serene natural landscape with mountains and lakes"⟩,
    ⟨"ocean", "🌊 海洋沙滩", "on a beautiful beach with turquoise water and waves"⟩,
    ⟨"space", "🚀 太空宇宙", "in deep space surrounded by stars and nebulae"⟩,
    ⟨"fantasy", "🏰 奇幻世界", "in a magical fantasy realm with floating islands and mystical creatures"⟩,
    ⟨"cyberpunk", "🤖 赛博朋克", "in a futuristic cyberpunk city with neon lights and rain"⟩,
    ⟨"ancient", "🏛️ 古代场景", "in an ancient historical setting with traditional architecture"⟩,
    ⟨"indoor", "🏠 室内场景", "in a cozy and modern indoor living space"⟩ ]

/-- The STYLES constant table of App.tsx. -/
def STYLES : List Preset :=
  [ ⟨"merged", "合并场景", "seamlessly merged artistic style"⟩,
    ⟨"surreal", "超现实艺术", "surrealist masterpiece, dreamlike atmosphere"⟩,
    ⟨"anime", "动漫风格", "high-quality anime illustration style"⟩,
    ⟨"cinematic", "电影级", "cinematic lighting, hyper-realistic, 8k resolution"⟩,
    ⟨"3d", "3D 渲染", "octane render, 3D digital art, highly detailed"⟩,
    ⟨"oil", "油画", "classical oil painting texture, expressive brushstrokes"⟩ ]

/-- The UploadedFile interface of App.tsx: id, preview (object URL),
the base64 payload with the data-URL prefix stripped, and the original
File, represented by the one field the app reads from it (file.type). -/
structure UploadedFile where
  id : String
  mimeType : String
  preview : String
  base64 : String
deriving Repr, DecidableEq

/-- A browser File as the app consumes it: its MIME type, the data URL
produced for it by FileReader.readAsDataURL (fileToBase64), and the
object URL produced for it by URL.createObjectURL. -/
structure RawFile where
  mimeType : String
  objectUrl : String
  dataUrl : String
deriving Repr, DecidableEq

/-- Processing of one file inside handleFileChange: a fresh id (drawn
from Math.random, passed in explicitly), the object-URL preview, and the
base64 payload obtained from the data URL by dropping everything up to
the first comma (base64.split(",")[1]). -/
def processFile (id : String) (f : RawFile) : UploadedFile :=
  { id := id
    mimeType := f.mimeType
    preview := f.objectUrl
    base64 := (f.dataUrl.splitOn ",").getD 1 "" }

/-- handleFileChange of App.tsx, acting on the files state: rejects the
whole batch with the capacity error when files.length + newFiles.length
exceeds 6, otherwise appends the processed batch in arrival order and
clears the error.  Returns the new files state and the new error state
(the reject branch leaves files untouched). -/
def handleFileChange (files : List UploadedFile) (ids : List String)
    (newFiles : List RawFile) : List UploadedFile × Option String :=
  if files.length + newFiles.length > 6 then
    (files, some "最多只能上传6张图片")
  else
    (files ++ List.zipWith processFile ids newFiles, none)

/-- removeFile of App.tsx: keeps exactly the entries whose id differs
from the given id. -/
def removeFile (files : List UploadedFile) (id : String) : List UploadedFile :=
  files.filter (fun f => f.id ≠ id)

/-- The UI state manipulated by generateImage and generateVideoScript:
the useState cells of App.tsx that those handlers read or write. -/
structure AppState where
  files : List UploadedFile
  description : String
  selectedScene : String
  selectedStyle : String
  isGenerating : Bool
  generatedImage : Option String
  videoScript : Option String
  isGeneratingScript : Bool
  error : Option String
deriving Repr, DecidableEq

/-- Scene prompt lookup in generateImage:
SCENES.find(s means s.id equals selectedScene)?.prompt with fallback "". -/
def sceneLookup (selectedScene : String) : String :=
  ((SCENES.find? (fun s => s.id == selectedScene)).map Preset.prompt).getD ""

/-- Style prompt lookup in generateImage:
STYLES.find(s means s.id equals selectedStyle)?.prompt with fallback "". -/
def styleLookup (selectedStyle : String) : String :=
  ((STYLES.find? (fun s => s.id == selectedStyle)).map Preset.prompt).getD ""

/-- Scene label lookup in generateVideoScript:
SCENES.find(s means s.id equals selectedScene)?.label with fallback "". -/
def sceneLabelLookup (selectedScene : String) : String :=
  ((SCENES.find? (fun s => s.id == selectedScene)).map Preset.label).getD ""

/-- The template-literal instruction built by generateImage from the
description and the looked-up scene and style prompt fragments. -/
def imagePrompt (description scene style : String) : String :=
  "Create a new creative image based on the following description: " ++ description ++
  ". \n      The scene should be " ++ scene ++
  ". \n      The overall style should be " ++ style ++
  ". \n      If reference images are provided, blend their visual elements, subjects, or color palettes into this new creation."

/-- One part of the request payload sent by generateImage: either the
instruction text or an inlineData entry with base64 data and MIME type. -/
inductive RequestPart where
  | text (t : String)
  | inlineData (data : String) (mimeType : String)
deriving Repr, DecidableEq

/-- The parts array built by generateImage: the instruction text first,
then one inlineData part per uploaded file, in upload order, carrying
the file base64 payload and file.type. -/
def imageRequestParts (description selectedScene selectedStyle : String)
    (files : List UploadedFile) : List RequestPart :=
  RequestPart.text (imagePrompt description (sceneLookup selectedScene) (styleLookup selectedStyle))
    :: files.map (fun f => RequestPart.inlineData f.base64 f.mimeType)

/-- One content part of the image-service response, as generateImage
reads it: an optional inlineData payload (its base64 data). -/
structure ResponsePart where
  inlineData : Option String
deriving Repr, DecidableEq

/-- The scan loop of generateImage over
response.candidates?.[0]?.content?.parts: the inlineData payload of the
first part that carries one. -/
def findInlineImage : List ResponsePart → Option String
  | [] => none
  | p :: rest =>
    match p.inlineData with
    | some d => some d
    | none => findInlineImage rest

/-- The validation guard at the top of generateImage:
not description and files.length equals 0. -/
def generateImageValidationFails (st : AppState) : Bool :=
  st.description.isEmpty && st.files.isEmpty

/-- The state generateImage establishes after passing validation and
before issuing the network call: busy flag set, GenerationResult,
ScriptResult and error cleared. -/
def preCallState (st : AppState) : AppState :=
  { st with isGenerating := true, generatedImage := none,
            videoScript := none, error := none }

/-- generateImage of App.tsx, with the image-service outcome passed in:
Except.error is a transport failure (carrying err.message), Except.ok
carries the response content parts.  Returns the final state and the
request parts sent (none when no network call was performed). -/
def generateImage (st : AppState) (response : Except String (List ResponsePart)) :
    AppState × Option (List RequestPart) :=
  if generateImageValidationFails st then
    ({ st with error := some "请输入描述或上传图片" }, none)
  else
    let st1 := preCallState st
    let req := imageRequestParts st.description st.selectedScene st.selectedStyle st.files
    match response with
    | .error msg =>
      ({ st1 with isGenerating := false,
                  error := some (if msg.isEmpty then "生成图片时发生错误" else msg) }, some req)
    | .ok parts =>
      match findInlineImage parts with
      | some d =>
        ({ st1 with isGenerating := false,
                    generatedImage := some ("data:image/png;base64," ++ d) }, some req)
      | none =>
        ({ st1 with isGenerating := false,
                    error := some "未能生成图片，请重试" }, some req)

/-- The template-literal instruction built by generateVideoScript from
the description and the looked-up scene label. -/
def scriptPrompt (description sceneLabel : String) : String :=
  "Based on the generated image and the original description \"" ++ description ++
  "\" in the " ++ sceneLabel ++ " scene, \n      generate a detailed 5-second video script. \n      The script should include:\n      1. Scene Description (Visuals)\n      2. Camera Movement\n      3. Lighting & Atmosphere\n      4. A brief \"Action\" that happens in these 5 seconds.\n      \n      Format the output in professional cinematic script style using Markdown. Use Chinese."

/-- generateVideoScript of App.tsx, with the text-service outcome passed
in: Except.error is a transport failure, Except.ok carries
response.text (none when the service returned no text).  Returns the
final state and the instruction sent (none when no call was performed).
The guard returns immediately when no generated image exists; the
response text is stored verbatim, with the JavaScript falsy check
replacing an absent or empty text by the fallback string. -/
def generateVideoScript (st : AppState) (response : Except String (Option String)) :
    AppState × Option String :=
  match st.generatedImage with
  | none => (st, none)
  | some _ =>
    let req := scriptPrompt st.description (sceneLabelLookup st.selectedScene)
    match response with
    | .error _ =>
      ({ st with isGeneratingScript := false,
                 error := some "生成视频文案时发生错误" }, some req)
    | .ok t =>
      ({ st with isGeneratingScript := false,
                 videoScript := some (match t with
                   | some s => if s.isEmpty then "无法生成文案" else s
                   | none => "无法生成文案") }, some req)

/-- A sample browser file used to evaluate the definitions on concrete
inputs. -/
def rfA : RawFile :=
  { mimeType := "image/png", objectUrl := "blob:ref-a",
    dataUrl := "data:image/png;base64,QUFB" }

/-- A second sample browser file. -/
def rfB : RawFile :=
  { mimeType := "image/jpeg", objectUrl := "blob:ref-b",
    dataUrl := "data:image/jpeg;base64,QkJC" }

/-- A sample app state with a non-empty description and no uploads. -/
def stEx : AppState :=
  { files := [], description := "a robot reading a book",
    selectedScene := "city", selectedStyle := "anime",
    isGenerating := false, generatedImage := none, videoScript := none,
    isGeneratingScript := false, error := none }

/-- The sample state after a successful generation: a generated image is
present and no script has been produced yet. -/
def stGen : AppState :=
  { stEx with generatedImage := some "data:image/png;base64,QUFB" }

/-- Substring containment: frag occurs contiguously inside s. -/
def containsFragment (s frag : String) : Prop :=
  ∃ a b, s = a ++ (frag ++ b)

/-- The id fields of a processed batch are exactly the ids drawn for it
(truncated to the batch length, as zipWith pairs them up). -/
theorem map_id_zipWith (ids : List String) (fs : List RawFile) :
    (List.zipWith processFile ids fs).map UploadedFile.id = ids.take fs.length := by
  induction ids generalizing fs with
  | nil => simp
  | cons i is ih =>
    cases fs with
    | nil => simp
    | cons f fs2 => simp [processFile, ih]

/-- Claim C3: generateImage with empty description and no uploaded files
fails with the validation error and performs no network call; with a
non-empty description or at least one file the validation check
passes. -/
theorem generateImage_validation (st : AppState)
    (response : Except String (List ResponsePart)) :
    (st.description = "" ∧ st.files = [] →
      (generateImage st response).2 = none ∧
      (generateImage st response).1.error = some "请输入描述或上传图片") ∧
    (st.description ≠ "" ∨ st.files ≠ [] →
      generateImageValidationFails st = false) := by
  constructor
  · rintro ⟨h1, h2⟩
    have hv : generateImageValidationFails st = true := by
      simp [generateImageValidationFails, h1, h2, String.isEmpty_iff,
        List.isEmpty_iff]
    simp [generateImage, hv]
  · rintro (h | h) <;>
      simp [generateImageValidationFails, String.isEmpty_iff, List.isEmpty_iff, h]

/-- Witness for C3 at concrete inputs: the empty state fails validation
without a request, and stEx passes the check. -/
theorem generateImage_validation_witness :
    ((generateImage { stEx with description := "" } (.ok [])).2 = none ∧
      (generateImage { stEx with description := "" } (.ok [])).1.error =
        some "请输入描述或上传图片") ∧
    generateImageValidationFails stEx = false :=
  ⟨(generateImage_validation { stEx with description := "" } (.ok [])).1 ⟨rfl, rfl⟩,
   (generateImage_validation stEx (.ok [])).2 (Or.inl (by decide))⟩

/-- Claim C4: a batch that would push the store past 6 entries is
rejected whole with the capacity error and the store is unchanged;
otherwise the whole batch is appended in arrival order. -/
theorem handleFileChange_all_or_nothing (files : List UploadedFile)
    (ids : List String) (newFiles : List RawFile) :
    (files.length + newFiles.length > 6 →
      handleFileChange files ids newFiles = (files, some "最多只能上传6张图片")) ∧
    (files.length + newFiles.length ≤ 6 →
      handleFileChange files ids newFiles =
        (files ++ List.zipWith processFile ids newFiles, none)) := by
  constructor
  · intro h
    simp [handleFileChange, h]
  · intro h
    simp [handleFileChange, Nat.not_lt.mpr h]

/-- Witness for C4: a 7-file batch into an empty store is rejected
whole, and a 2-file batch is appended. -/
theorem handleFileChange_all_or_nothing_witness :
    handleFileChange [] ["i1", "i2", "i3", "i4", "i5", "i6", "i7"]
        [rfA, rfA, rfA, rfA, rfA, rfA, rfA] =
      ([], some "最多只能上传6张图片") ∧
    handleFileChange [] ["i1", "i2"] [rfA, rfB] =
      ([] ++ List.zipWith processFile ["i1", "i2"] [rfA, rfB], none) :=
  ⟨(handleFileChange_all_or_nothing [] _ _).1 (by decide),
   (handleFileChange_all_or_nothing [] _ _).2 (by decide)⟩

/-- Claim C5: from any store holding at most 6 entries, both adding a
batch and removing an entry leave at most 6 entries. -/
theorem upload_store_capacity (files : List UploadedFile) (ids : List String)
    (newFiles : List RawFile) (id : String) (h : files.length ≤ 6) :
    (handleFileChange files ids newFiles).1.length ≤ 6 ∧
    (removeFile files id).length ≤ 6 := by
  constructor
  · by_cases hc : files.length + newFiles.length > 6
    · simp [handleFileChange, hc, h]
    · simp only [handleFileChange, if_neg hc, List.length_append,
        List.length_zipWith]
      omega
  · simp only [removeFile]
    exact le_trans (List.length_filter_le _ _) h

/-- Witness for C5 at a concrete store of one entry. -/
theorem upload_store_capacity_witness :
    (handleFileChange [processFile "i0" rfA] ["i1"] [rfB]).1.length ≤ 6 ∧
    (removeFile [processFile "i0" rfA] "i0").length ≤ 6 :=
  upload_store_capacity [processFile "i0" rfA] ["i1"] [rfB] "i0" (by decide)

/-- Claim C7: when no generated image exists, generateVideoScript
returns before doing anything: the state is unchanged and no request is
sent. -/
theorem generateVideoScript_noop (st : AppState)
    (response : Except String (Option String)) (h : st.generatedImage = none) :
    generateVideoScript st response = (st, none) := by
  simp [generateVideoScript, h]

/-- Witness for C7 at the sample state without a generated image. -/
theorem generateVideoScript_noop_witness :
    generateVideoScript stEx (.ok (some "INT. CITY — DAY...")) = (stEx, none) :=
  generateVideoScript_noop stEx (.ok (some "INT. CITY — DAY...")) rfl

/-- The scan loop of generateImage returns the inlineData payload of
the first response part carrying one. -/
theorem findInlineImage_eq_find (parts : List ResponsePart) :
    findInlineImage parts =
      (parts.find? (fun p => p.inlineData.isSome)).bind ResponsePart.inlineData := by
  induction parts with
  | nil => rfl
  | cons p rest ih =>
    cases hp : p.inlineData with
    | none => simp [findInlineImage, List.find?_cons, hp, ih]
    | some d => simp [findInlineImage, List.find?_cons, hp]

/-- Claim C1: generateImage takes the first response part carrying
inline data; when one exists the generated image becomes the
data:image/png;base64 URI of its payload, and when none exists the call
fails with the no-image error and the generated image stays unset. -/
theorem generateImage_response_scan (st : AppState) (parts : List ResponsePart)
    (h : generateImageValidationFails st = false) :
    (findInlineImage parts =
      (parts.find? (fun p => p.inlineData.isSome)).bind ResponsePart.inlineData) ∧
    (∀ d, findInlineImage parts = some d →
      (generateImage st (.ok parts)).1.generatedImage =
        some ("data:image/png;base64," ++ d)) ∧
    (findInlineImage parts = none →
      (generateImage st (.ok parts)).1.generatedImage = none ∧
      (generateImage st (.ok parts)).1.error = some "未能生成图片，请重试") := by
  refine ⟨findInlineImage_eq_find parts, ?_, ?_⟩
  · intro d hd
    simp [generateImage, h, hd]
  · intro hn
    simp [generateImage, h, hn, preCallState]

/-- Witness for C1: a response whose first inline part is the second
part yields its payload as the image, and an inline-free response
leaves the image unset with the no-image error. -/
theorem generateImage_response_scan_witness :
    (generateImage stEx (.ok [⟨none⟩, ⟨some "QUFB"⟩])).1.generatedImage =
      some ("data:image/png;base64," ++ "QUFB") ∧
    ((generateImage stEx (.ok [⟨none⟩])).1.generatedImage = none ∧
      (generateImage stEx (.ok [⟨none⟩])).1.error = some "未能生成图片，请重试") :=
  ⟨(generateImage_response_scan stEx [⟨none⟩, ⟨some "QUFB"⟩] (by decide)).2.1
      "QUFB" rfl,
   (generateImage_response_scan stEx [⟨none⟩] (by decide)).2.2 rfl⟩

/-- Claim C2: the request generateImage sends is the instruction text
followed by one inlineData part per uploaded file in upload order with
its base64 payload and original media type, and the instruction
contains the description, the looked-up scene fragment and the
looked-up style fragment literally. -/
theorem generateImage_request_shape (d sc st : String)
    (files : List UploadedFile) :
    imageRequestParts d sc st files =
      RequestPart.text (imagePrompt d (sceneLookup sc) (styleLookup st))
        :: files.map (fun f => RequestPart.inlineData f.base64 f.mimeType) ∧
    containsFragment (imagePrompt d (sceneLookup sc) (styleLookup st)) d ∧
    containsFragment (imagePrompt d (sceneLookup sc) (styleLookup st)) (sceneLookup sc) ∧
    containsFragment (imagePrompt d (sceneLookup sc) (styleLookup st)) (styleLookup st) := by
  refine ⟨rfl, ?_, ?_, ?_⟩
  · exact ⟨"Create a new creative image based on the following description: ",
      ". \n      The scene should be " ++ (sceneLookup sc ++
        (". \n      The overall style should be " ++ (styleLookup st ++
          ". \n      If reference images are provided, blend their visual elements, subjects, or color palettes into this new creation."))),
      by simp [imagePrompt, String.append_assoc]⟩
  · exact ⟨"Create a new creative image based on the following description: " ++
        (d ++ ". \n      The scene should be "),
      ". \n      The overall style should be " ++ (styleLookup st ++
        ". \n      If reference images are provided, blend their visual elements, subjects, or color palettes into this new creation."),
      by simp [imagePrompt, String.append_assoc]⟩
  · exact ⟨"Create a new creative image based on the following description: " ++
        (d ++ (". \n      The scene should be " ++ (sceneLookup sc ++
          ". \n      The overall style should be "))),
      ". \n      If reference images are provided, blend their visual elements, subjects, or color palettes into this new creation.",
      by simp [imagePrompt, String.append_assoc]⟩

/-- Claim C6: past validation, generateImage clears the generated image,
the video script and the error before the call is issued; the request is
always sent from that cleared state, a failed call leaves the generated
image unset, and every outcome leaves the video script unset. -/
theorem generateImage_clears_results (st : AppState)
    (response : Except String (List ResponsePart))
    (h : generateImageValidationFails st = false) :
    (preCallState st).generatedImage = none ∧
    (preCallState st).videoScript = none ∧
    (generateImage st response).2 =
      some (imageRequestParts st.description st.selectedScene st.selectedStyle st.files) ∧
    (generateImage st response).1.videoScript = none ∧
    (∀ msg, (generateImage st (.error msg)).1.generatedImage = none) ∧
    (∀ parts, findInlineImage parts = none →
      (generateImage st (.ok parts)).1.generatedImage = none) := by
  refine ⟨rfl, rfl, ?_, ?_, ?_, ?_⟩
  · cases response with
    | error msg => simp [generateImage, h]
    | ok parts =>
      cases hfi : findInlineImage parts <;> simp [generateImage, h, hfi]
  · cases response with
    | error msg => simp [generateImage, h, preCallState]
    | ok parts =>
      cases hfi : findInlineImage parts <;>
        simp [generateImage, h, hfi, preCallState]
  · intro msg
    simp [generateImage, h, preCallState]
  · intro parts hfi
    simp [generateImage, h, hfi, preCallState]

/-- Witness for C6 at the sample state and a failing transport. -/
theorem generateImage_clears_results_witness :
    (preCallState stEx).generatedImage = none ∧
    (preCallState stEx).videoScript = none ∧
    (generateImage stEx (.error "boom")).2 =
      some (imageRequestParts stEx.description stEx.selectedScene
        stEx.selectedStyle stEx.files) ∧
    (generateImage stEx (.error "boom")).1.videoScript = none ∧
    (generateImage stEx (.error "boom")).1.generatedImage = none :=
  have h := generateImage_clears_results stEx (.error "boom") (by decide)
  ⟨h.1, h.2.1, h.2.2.1, h.2.2.2.1, h.2.2.2.2.1 "boom"⟩

/-- Claim C8: with a generated image present, generateVideoScript stores
non-empty response text verbatim, stores the fallback string when the
service returns no text, and on transport failure reports the script
error and leaves an unset script unset. -/
theorem generateVideoScript_response (st : AppState)
    (h : st.generatedImage.isSome = true) :
    (∀ s : String, s ≠ "" →
      (generateVideoScript st (.ok (some s))).1.videoScript = some s) ∧
    (generateVideoScript st (.ok none)).1.videoScript = some "无法生成文案" ∧
    (∀ e : String, st.videoScript = none →
      (generateVideoScript st (.error e)).1.videoScript = none ∧
      (generateVideoScript st (.error e)).1.error = some "生成视频文案时发生错误") := by
  obtain ⟨img, himg⟩ := Option.isSome_iff_exists.mp h
  refine ⟨?_, ?_, ?_⟩
  · intro s hs
    have hse : s.isEmpty = false := by
      cases he : s.isEmpty
      · rfl
      · exact absurd ((String.isEmpty_iff s).mp he) hs
    simp [generateVideoScript, himg, hse]
  · simp [generateVideoScript, himg]
  · intro e hvs
    simp [generateVideoScript, himg, hvs]

/-- Witness for C8 at the post-generation sample state. -/
theorem generateVideoScript_response_witness :
    (generateVideoScript stGen (.ok (some "INT. CITY — DAY..."))).1.videoScript =
      some "INT. CITY — DAY..." ∧
    (generateVideoScript stGen (.ok none)).1.videoScript = some "无法生成文案" ∧
    ((generateVideoScript stGen (.error "boom")).1.videoScript = none ∧
      (generateVideoScript stGen (.error "boom")).1.error =
        some "生成视频文案时发生错误") :=
  have h := generateVideoScript_response stGen (by decide)
  ⟨h.1 "INT. CITY — DAY..." (by decide), h.2.1, h.2.2 "boom" rfl⟩

/-- Claim C9 counterexample: ids are drawn from Math.random with no
uniqueness check, so an execution in which the same 9-character draw
occurs twice stores two entries sharing an id. -/
theorem duplicate_id_draws_collide :
    ¬ (((handleFileChange [] ["q3k9z7m1x", "q3k9z7m1x"] [rfA, rfB]).1.map
        UploadedFile.id).Nodup) := by
  decide

/-- Claim C9 as amended: provided the random draws used for a batch are
pairwise distinct and distinct from the ids already stored, adding the
batch keeps all stored ids distinct, and removing an entry always keeps
them distinct. -/
theorem unique_ids_under_distinct_draws (files : List UploadedFile)
    (ids : List String) (newFiles : List RawFile) (id : String)
    (h1 : (files.map UploadedFile.id).Nodup) (h2 : ids.Nodup)
    (h3 : ∀ i ∈ ids, i ∉ files.map UploadedFile.id) :
    ((handleFileChange files ids newFiles).1.map UploadedFile.id).Nodup ∧
    ((removeFile files id).map UploadedFile.id).Nodup := by
  constructor
  · by_cases hc : files.length + newFiles.length > 6
    · simpa [handleFileChange, hc] using h1
    · simp only [handleFileChange, if_neg hc, List.map_append, map_id_zipWith]
      rw [List.nodup_append]
      refine ⟨h1, h2.sublist (List.take_sublist _ _), ?_⟩
      intro x hx hx2
      exact h3 x (List.mem_of_mem_take hx2) hx
  · exact h1.sublist ((List.filter_sublist files).map UploadedFile.id)

/-- Witness for the amended C9 at a concrete store and batch with
distinct draws. -/
theorem unique_ids_under_distinct_draws_witness :
    ((handleFileChange [processFile "i0" rfA] ["i1", "i2"] [rfA, rfB]).1.map
      UploadedFile.id).Nodup ∧
    ((removeFile [processFile "i0" rfA] "i0").map UploadedFile.id).Nodup :=
  unique_ids_under_distinct_draws [processFile "i0" rfA] ["i1", "i2"]
    [rfA, rfB] "i0" (by decide) (by decide) (by decide)

/-- Claim C10: an unknown scene or style id makes the corresponding
lookup fall back to the empty string, for the prompt fragments of
generateImage and the scene label of generateVideoScript alike. -/
theorem unknown_preset_lookup (sceneId styleId : String)
    (h1 : sceneId ∉ SCENES.map Preset.id) (h2 : styleId ∉ STYLES.map Preset.id) :
    sceneLookup sceneId = "" ∧ styleLookup styleId = "" ∧
    sceneLabelLookup sceneId = "" := by
  have hs : SCENES.find? (fun s => s.id == sceneId) = none := by
    rw [List.find?_eq_none]
    intro x hx
    simp only [beq_iff_eq]
    intro hEq
    exact h1 (hEq ▸ List.mem_map_of_mem Preset.id hx)
  have ht : STYLES.find? (fun s => s.id == styleId) = none := by
    rw [List.find?_eq_none]
    intro x hx
    simp only [beq_iff_eq]
    intro hEq
    exact h2 (hEq ▸ List.mem_map_of_mem Preset.id hx)
  exact ⟨by simp [sceneLookup, hs], by simp [styleLookup, ht],
    by simp [sceneLabelLookup, hs]⟩

/-- Witness for C10 at an id absent from both tables. -/
theorem unknown_preset_lookup_witness :
    sceneLookup "volcano" = "" ∧ styleLookup "volcano" = "" ∧
    sceneLabelLookup "volcano" = "" :=
  unknown_preset_lookup "volcano" "volcano" (by decide) (by decide)

end VisionAI
